import Mathlib

/-!
Shallow embedding of the WOFOST simulation worker
(`app/simulation/worker.py`, `SimulationWorker.run`) of the
kenya_digital_twin_farm repository, together with theorems checking the
specification claims about it.

Modelling conventions: Python floats are embedded as rationals, calendar
dates as integers (day numbers, so that `date + timedelta(days=d)` is
integer addition), a raised exception of an external collaborator as the
`Except.error` case, and a weather lookup that raises as `none`.  The
external crop-growth engine, the crop-data provider, the parameter
provider and the weather provider appear as function-valued fields of the
environment record, since the source treats them as opaque collaborators.
-/

/-- Weather record returned by the weather provider for one date
(fields TMAX, TMIN, RAIN, IRRAD as in the source). -/
structure WeatherRec where
  TMAX : ℚ
  TMIN : ℚ
  RAIN : ℚ
  IRRAD : ℚ
deriving Repr, DecidableEq

/-- Weather provider: callable by date, may raise (modelled as `none`). -/
abbrev Weather := ℤ → Option WeatherRec

/-- One nitrogen application tuple `(days, amount, recovery)` of a
fertilizer scenario. -/
structure Application where
  days : ℤ
  amount : ℚ
  recovery : ℚ
deriving Repr, DecidableEq

/-- One fertilizer scenario record (`scenario` dict in the source). -/
structure Scenario where
  name : String
  enabled : Bool
  applications : List Application
  total_n : ℚ
deriving Repr, DecidableEq

/-- Crop catalog entry (`CROP_OPTIONS[crop_name]` in `config/crops.py`),
restricted to the fields the worker reads. -/
structure CropConfig where
  variety : String
  season_days : ℤ
  needs_vern_override : Bool
deriving Repr, DecidableEq

/-- One timed nitrogen-application event as built by the worker
(lines 93-107 of worker.py): the events_table single entry is flattened
into the fields eventDate, n_amount, n_recovery. -/
structure TimedEvent where
  event_signal : String
  name : String
  comment : String
  eventDate : ℤ
  n_amount : ℚ
  n_recovery : ℚ
deriving Repr, DecidableEq

/-- Default timed event, used only as the fallback of list lookups in
theorem statements. -/
def dfltEvent : TimedEvent :=
  { event_signal := "", name := "", comment := "", eventDate := 0,
    n_amount := 0, n_recovery := 0 }

/-- Default application, used only as the fallback of list lookups in
theorem statements. -/
def dfltApp : Application := { days := 0, amount := 0, recovery := 0 }

/-- The timed event built for the application at 0-based position `i`
(the source labels it with the 1-based position `i + 1`). -/
def mkTimedEvent (plantingDate : ℤ) (i : ℕ) (app : Application) : TimedEvent :=
  { event_signal := "apply_n",
    name := "N application " ++ toString (i + 1),
    comment := toString app.amount ++ " kg N/ha",
    eventDate := plantingDate + app.days,
    n_amount := app.amount,
    n_recovery := app.recovery }

/-- The loop `for i, (days, amount, recovery) in enumerate(scenario["applications"])`,
starting at index `i`. -/
def buildEventsFrom (plantingDate : ℤ) : ℕ → List Application → List TimedEvent
  | _, [] => []
  | i, app :: rest =>
      mkTimedEvent plantingDate i app :: buildEventsFrom plantingDate (i + 1) rest

/-- Lines 86-107 of worker.py: `timed_events` stays `None` when the
application list is falsy (empty); otherwise it is the enumerated list of
events. -/
def buildTimedEvents (plantingDate : ℤ) (apps : List Application) :
    Option (List TimedEvent) :=
  match apps with
  | [] => none
  | _ => some (buildEventsFrom plantingDate 0 apps)

/-- The CropCalendar block of the agromanagement dict. -/
structure CropCal where
  crop_name : String
  variety_name : String
  crop_start_date : ℤ
  crop_start_type : String
  crop_end_date : ℤ
  crop_end_type : String
  max_duration : ℤ
deriving Repr, DecidableEq

/-- The agromanagement structure (`agro` dict, lines 109-128): one block
keyed by the planting date, with crop calendar, optional timed events and
(always absent) state events. -/
structure AgroMgmt where
  version : ℚ
  startDate : ℤ
  cropCalendar : CropCal
  timedEvents : Option (List TimedEvent)
  stateEvents : Option (List TimedEvent)
deriving Repr, DecidableEq

/-- End-of-run summary record; the worker reads TWSO, TAGP and LAIMAX via
`dict.get` with default 0, so each field is optional. -/
structure Summary where
  TWSO : Option ℚ
  TAGP : Option ℚ
  LAIMAX : Option ℚ
deriving Repr, DecidableEq

/-- Raw engine output as the worker consumes it: the day column of
`model.get_output()` plus `model.get_summary_output()`. -/
structure EngineResult where
  days : List ℤ
  summary : List Summary
deriving Repr, DecidableEq

/-- The per-scenario output table (`df`): its day sequence and the two
derived GDD columns, each `none` until (and unless) assigned. -/
structure RunOutput where
  days : List ℤ
  GDD : Option (List ℚ)
  daily_GDD : Option (List ℚ)
deriving Repr, DecidableEq

/-- One entry of the `results` list (lines 226-236 of worker.py). -/
structure ScenarioResult where
  df : RunOutput
  summ : Summary
  yield_kg : ℚ
  yield_t : ℚ
  scenario : String
  scenario_key : String
  n_rate : ℚ
  tagp : ℚ
  laimax : ℚ
deriving Repr, DecidableEq

/-- Active crop data provider (YAMLCropDataProvider after set_active_crop),
kept abstract up to the active crop and variety. -/
structure CropD where
  crop : String
  variety : String
deriving Repr, DecidableEq

/-- Parameter provider, kept abstract up to its override list
(`params.set_override` appends to it). -/
structure Params where
  overrides : List (String × ℚ)
deriving Repr, DecidableEq

/-- Lines 166-169 of worker.py: when the crop profile requests it, the
three vernalization parameters are overridden to zero. -/
def applyVernOverride (cfg : CropConfig) (p : Params) : Params :=
  if cfg.needs_vern_override then
    { overrides := p.overrides ++ [("VERNSAT", 0), ("VERNBASE", 0), ("VERNDVS", 0)] }
  else p

/-- Environment of one batch run: configuration already read from
`self.config` plus the external collaborators.  Fallible collaborator
calls return `Except` (an `Except.error` models a raised exception). -/
structure Env where
  crop_name : String
  cropConfig : CropConfig
  locationName : String
  startYear : ℤ
  plantingDate : ℤ
  endDate : ℤ
  yearDays : List ℤ
  makeWeather : Except String Weather
  buildCropData : Except String CropD
  buildParams : CropD → Except String Params
  engine : Params → AgroMgmt → Except String EngineResult

/-- Lines 109-128 of worker.py: the agromanagement dict built for one
scenario. -/
def buildAgro (env : Env) (sc : Scenario) : AgroMgmt :=
  { version := 1,
    startDate := env.plantingDate,
    cropCalendar :=
      { crop_name := env.crop_name,
        variety_name := env.cropConfig.variety,
        crop_start_date := env.plantingDate,
        crop_start_type := "emergence",
        crop_end_date := env.endDate,
        crop_end_type := "earliest",
        max_duration := env.cropConfig.season_days },
    timedEvents := buildTimedEvents env.plantingDate sc.applications,
    stateEvents := none }

/-- Base temperature of the GDD computation (line 199: `tbase = 0.0`). -/
def tbase : ℚ := 0

/-- One iteration of the GDD loop body for day `d` (lines 202-217): on a
successful lookup, `max(0, (TMAX + TMIN) / 2 - tbase)`; a raised lookup is
caught and contributes 0. -/
def gddStep (weather : Weather) (d : ℤ) : ℚ :=
  match weather d with
  | some w => max 0 ((w.TMAX + w.TMIN) / 2 - tbase)
  | none => 0

/-- Running sums starting from accumulator `acc` (the `cumulative_gdd`
variable of lines 200, 219-221). -/
def cumsumFrom (acc : ℚ) : List ℚ → List ℚ
  | [] => []
  | x :: xs => (acc + x) :: cumsumFrom (acc + x) xs

/-- The cumulative list built by the GDD loop from the daily list. -/
def cumsum (l : List ℚ) : List ℚ := cumsumFrom 0 l

/-- The crop names tested on line 183 of worker.py. -/
def rootTuberCrops : List String := ["potato", "cassava", "sweetpotato"]

/-- Lines 181-194 of worker.py: main yield is TWSO (default 0) when
strictly positive, else TAGP (default 0) times 0.5 for root/tuber crops
and times 0.4 otherwise. -/
def mainYield (crop : String) (s : Summary) : ℚ :=
  let grain_yield := s.TWSO.getD 0
  if crop ∈ rootTuberCrops then
    if grain_yield > 0 then grain_yield else s.TAGP.getD 0 * 0.5
  else
    if grain_yield > 0 then grain_yield else s.TAGP.getD 0 * 0.4

/-- What one scenario iteration contributes to the batch state: at most
one `results` entry and at most one `dataframes` entry. -/
structure ScenOut where
  newResult : Option ScenarioResult
  newTable : Option (String × RunOutput)
deriving Repr, DecidableEq

/-- Lines 175-238 of worker.py after a successful engine run: build `df`,
read the summary, and follow the source branch structure exactly — for
root/tuber crops the block computing GDD and appending the result sits in
the other branch of the crop test (and the `main_yield` computed for them
is dead), so only the table entry is produced. -/
def processOutput (env : Env) (weather : Weather) (key : String)
    (sc : Scenario) (er : EngineResult) : ScenOut :=
  let df : RunOutput := { days := er.days, GDD := none, daily_GDD := none }
  match er.summary with
  | [] => { newResult := none, newTable := none }
  | s :: _ =>
    if env.crop_name ∈ rootTuberCrops then
      { newResult := none, newTable := some (sc.name, df) }
    else
      let main_yield := mainYield env.crop_name s
      let daily_gdd_list := er.days.map (gddStep weather)
      let gdd_list := cumsum daily_gdd_list
      let df2 : RunOutput :=
        { days := er.days, GDD := some gdd_list, daily_GDD := some daily_gdd_list }
      { newResult := some
          { df := df2, summ := s,
            yield_kg := main_yield,
            yield_t := main_yield / 1000,
            scenario := sc.name,
            scenario_key := key,
            n_rate := sc.total_n,
            tagp := s.TAGP.getD 0,
            laimax := s.LAIMAX.getD 0 },
        newTable := some (sc.name, df2) }

/-- Python integer division, raising ZeroDivisionError on divisor 0. -/
def pyIntDiv (a b : ℕ) : Except String ℕ :=
  if b = 0 then .error "ZeroDivisionError" else .ok (a / b)

/-- Lines 77-243 of worker.py, the body of one enabled-scenario iteration:
progress emit, agromanagement build, crop-data and parameter assembly
(outside the inner try, so their failures propagate), then the inner
try/except around the engine run whose failure is swallowed.  Returns the
progress emissions performed and either the batch-fatal error or the
iteration contribution. -/
def scenarioBody (env : Env) (weather : Weather) (total completed : ℕ)
    (key : String) (sc : Scenario) :
    List (ℕ × String) × Except String ScenOut :=
  match pyIntDiv (70 * completed) total with
  | .error e => ([], .error e)
  | .ok q =>
    let emits := [(20 + q, "Running: " ++ sc.name ++ "...")]
    let agro := buildAgro env sc
    match env.buildCropData with
    | .error e => (emits, .error e)
    | .ok cropd =>
      match env.buildParams cropd with
      | .error e => (emits, .error e)
      | .ok params =>
        let params2 := applyVernOverride env.cropConfig params
        match env.engine params2 agro with
        | .error _ => (emits, .ok { newResult := none, newTable := none })
        | .ok er => (emits, .ok (processOutput env weather key sc er))

/-- Number of enabled scenarios (line 68-70 of worker.py). -/
def countEnabled (scs : List (String × Scenario)) : ℕ :=
  (scs.filter (fun p => p.2.enabled)).length

/-- Lines 73-243 of worker.py: the scenario loop.  Disabled scenarios are
skipped before anything else happens; `completed` counts processed enabled
scenarios; a batch-fatal error stops the loop. -/
def loopScenarios (env : Env) (weather : Weather) (total : ℕ) :
    ℕ → List (String × Scenario) →
    List (ℕ × String) × Except String (List ScenarioResult × List (String × RunOutput))
  | _, [] => ([], .ok ([], []))
  | completed, (key, sc) :: rest =>
    if sc.enabled then
      match scenarioBody env weather total completed key sc with
      | (emits, .error e) => (emits, .error e)
      | (emits, .ok out) =>
        match loopScenarios env weather total (completed + 1) rest with
        | (emits2, .error e) => (emits ++ emits2, .error e)
        | (emits2, .ok (rs, dfs)) =>
          (emits ++ emits2, .ok (out.newResult.toList ++ rs, out.newTable.toList ++ dfs))
    else
      loopScenarios env weather total completed rest

/-- One row of the prefetched weather table (lines 52-58), with radiation
converted from J/m2 to MJ/m2. -/
structure WeatherRow where
  rowDate : ℤ
  tmax : ℚ
  tmin : ℚ
  rain : ℚ
  radiation : ℚ
deriving Repr, DecidableEq

/-- Lines 48-62 of worker.py: per-day weather prefetch over the year;
failed lookups are caught and simply omitted from the table. -/
def weatherRows (weather : Weather) (days : List ℤ) : List WeatherRow :=
  days.filterMap fun d =>
    (weather d).map fun w =>
      { rowDate := d, tmax := w.TMAX, tmin := w.TMIN, rain := w.RAIN,
        radiation := w.IRRAD / 1000000 }

/-- Payload of the `finished` signal (line 247-249). -/
structure Finished where
  results : List ScenarioResult
  dataframes : List (String × RunOutput)
  weatherDf : List WeatherRow
  weatherYear : ℤ
  locationName : String
deriving Repr, DecidableEq

/-- Observable outcome of one batch run: the progress emissions in order,
and either the finished payload or the error-signal payload (outer
try/except of `SimulationWorker.run`). -/
structure BatchRun where
  log : List (ℕ × String)
  outcome : Except String Finished

/-- The whole of `SimulationWorker.run`: setup emits (5 then 15), weather
provider construction (batch-fatal on failure), weather prefetch, the
scenario loop, then the finalization emits (95, 100) and the finished
signal.  A batch-fatal error inside the loop reaches the outer except:
the error signal is emitted and no finished payload exists. -/
def runBatch (env : Env) (scenarios : List (String × Scenario)) : BatchRun :=
  let l0 : List (ℕ × String) :=
    [(5, "Importing PCSE modules..."),
     (15, "Loading weather for " ++ env.locationName ++ "...")]
  match env.makeWeather with
  | .error e => { log := l0, outcome := .error e }
  | .ok weather =>
    let wdf := weatherRows weather env.yearDays
    let total := countEnabled scenarios
    match loopScenarios env weather total 0 scenarios with
    | (emits, .error e) => { log := l0 ++ emits, outcome := .error e }
    | (emits, .ok (rs, dfs)) =>
      { log := l0 ++ emits ++ [(95, "Finalizing results..."), (100, "Done!")],
        outcome := .ok
          { results := rs, dataframes := dfs, weatherDf := wdf,
            weatherYear := env.startYear, locationName := env.locationName } }

/-- Result list of a batch run, empty when the batch ended in the error
signal. -/
def resultsOfRun (b : BatchRun) : List ScenarioResult :=
  match b.outcome with
  | .ok f => f.results
  | .error _ => []

/-- Decidable equality for Except values, so that concrete batch outcomes
can be settled by `decide`. -/
instance {ε α : Type} [DecidableEq ε] [DecidableEq α] : DecidableEq (Except ε α) :=
  fun a b =>
    match a, b with
    | .error e, .error f =>
        if h : e = f then isTrue (by rw [h])
        else isFalse (fun hh => h (Except.error.inj hh))
    | .ok x, .ok y =>
        if h : x = y then isTrue (by rw [h])
        else isFalse (fun hh => h (Except.ok.inj hh))
    | .error _, .ok _ => isFalse (fun hh => Except.noConfusion hh)
    | .ok _, .error _ => isFalse (fun hh => Except.noConfusion hh)

/-! Concrete fixtures used by witnesses and counterexamples. -/

/-- Constant weather provider that always answers. -/
def wOk : Weather := fun _ =>
  some { TMAX := 25, TMIN := 15, RAIN := 0, IRRAD := 20000000 }

/-- Weather provider whose lookup raises exactly on day 1. -/
def wPartial : Weather := fun d => if d = 1 then none else wOk d

/-- Summary with a positive TWSO. -/
def sTest : Summary := { TWSO := some 5000, TAGP := some 12000, LAIMAX := some 3 }

/-- Engine output with three days and the summary above. -/
def erTest : EngineResult := { days := [0, 1, 2], summary := [sTest] }

/-- Scenario with no nitrogen applications. -/
def scControl : Scenario :=
  { name := "Control", enabled := true, applications := [], total_n := 0 }

/-- Scenario with two nitrogen applications. -/
def scNpk : Scenario :=
  { name := "NPK", enabled := true,
    applications := [{ days := 0, amount := 15, recovery := 0.7 },
                     { days := 30, amount := 10, recovery := 0.6 }],
    total_n := 25 }

/-- The spec example applications `[(0, 15, 0.7), (30, 10, 0.6)]`. -/
def appsTest : List Application := scNpk.applications

/-- Active crop data fixture. -/
def cropdTest : CropD := { crop := "maize", variety := "Maize_401" }

/-- Maize environment whose collaborators all succeed. -/
def envMaize : Env :=
  { crop_name := "maize",
    cropConfig := { variety := "Maize_401", season_days := 120,
                    needs_vern_override := false },
    locationName := "Nakuru",
    startYear := 2023, plantingDate := 100, endDate := 364, yearDays := [],
    makeWeather := .ok wOk,
    buildCropData := .ok cropdTest,
    buildParams := fun _ => .ok { overrides := [] },
    engine := fun _ _ => .ok erTest }

/-- Potato environment (root/tuber crop) whose collaborators all succeed. -/
def envPotato : Env :=
  { envMaize with
    crop_name := "potato",
    cropConfig := { variety := "Potato_701", season_days := 120,
                    needs_vern_override := false } }

/-- Environment whose crop-data assembly raises for every scenario. -/
def envCropFail : Env :=
  { envMaize with buildCropData := .error "crop data failure" }

/-- Environment whose engine raises for every scenario. -/
def envEngineFail : Env :=
  { envMaize with engine := fun _ _ => .error "engine failure" }

/-- Environment whose engine raises exactly for scenarios without timed
events (so scControl fails and scNpk succeeds). -/
def envHalf : Env :=
  { envMaize with
    engine := fun _ agro =>
      match agro.timedEvents with
      | none => .error "engine failure"
      | some _ => .ok erTest }

/-- Engine output with an empty day column and a nonempty summary. -/
def erNoDays : EngineResult := { days := [], summary := [sTest] }

/-- Maize environment whose engine reports an empty day column. -/
def envMaizeNoDays : Env := { envMaize with engine := fun _ _ => .ok erNoDays }

/-- The result record envMaizeNoDays produces for scControl under key s1. -/
def rMaizeTest : ScenarioResult :=
  { df := { days := [], GDD := some [], daily_GDD := some [] },
    summ := sTest,
    yield_kg := mainYield "maize" sTest,
    yield_t := mainYield "maize" sTest / 1000,
    scenario := "Control", scenario_key := "s1", n_rate := 0,
    tagp := 12000, laimax := 3 }

/-! Theorems for the specification claims. -/

/-- C5: the main-yield fallback is applied if and only if the primary
storage-organ value (TWSO, default 0) is not strictly positive; when
applied, main yield is 0.5 times total aboveground biomass for root/tuber
crops and 0.4 times it for all other crops; when not applied, main yield
equals TWSO. -/
theorem c5_yield_fallback (crop : String) (s : Summary) :
    (s.TWSO.getD 0 ≤ 0 →
      mainYield crop s =
        (if crop ∈ rootTuberCrops then (0.5 : ℚ) else 0.4) * s.TAGP.getD 0) ∧
    (0 < s.TWSO.getD 0 → mainYield crop s = s.TWSO.getD 0) := by
  constructor
  · intro h
    have h2 : ¬ (s.TWSO.getD 0 > 0) := not_lt.mpr h
    by_cases hc : crop ∈ rootTuberCrops <;>
      simp [mainYield, hc, h2, mul_comm]
  · intro h
    by_cases hc : crop ∈ rootTuberCrops <;>
      simp [mainYield, hc, h]

/-- Witness for C5 at a concrete non-root crop with TWSO = 0. -/
theorem c5_yield_fallback_witness :
    mainYield "maize" { TWSO := some 0, TAGP := some 10000, LAIMAX := none } =
      (if "maize" ∈ rootTuberCrops then (0.5 : ℚ) else 0.4) * 10000 :=
  (c5_yield_fallback "maize"
    { TWSO := some 0, TAGP := some 10000, LAIMAX := none }).1 (by decide)

/-- C6: a scenario with an empty application list yields an
agromanagement calendar whose timed-event entry is the absent value,
never an empty list. -/
theorem c6_empty_apps_no_events (env : Env) (sc : Scenario)
    (h : sc.applications = []) :
    (buildAgro env sc).timedEvents = none := by
  simp [buildAgro, buildTimedEvents, h]

/-- Witness for C6 at the concrete application-free scenario. -/
theorem c6_empty_apps_no_events_witness :
    (buildAgro envMaize scControl).timedEvents = none :=
  c6_empty_apps_no_events envMaize scControl rfl

/-- C1 counterexample: a crop-data assembly failure inside the scenario
loop is not caught at the scenario boundary: the batch run ends in the
error signal (no finished payload, the second scenario never reached, the
log stops right after the first per-scenario emit), contradicting the
claim that such a scenario is recorded as skipped and the batch proceeds. -/
theorem c1_construction_failure_aborts_batch :
    (runBatch envCropFail [("s1", scControl), ("s2", scNpk)]).outcome =
      Except.error "crop data failure" ∧
    (runBatch envCropFail [("s1", scControl), ("s2", scNpk)]).log.map Prod.fst =
      [5, 15, 20] := by
  decide

/-- C2 evaluation at the failing input: for a potato scenario whose
engine run succeeds with a nonempty summary, the scenario iteration
appends no GDD columns at all (both derived columns stay absent), because
the GDD block sits inside the non-root/tuber branch of the crop test. -/
theorem c2_potato_run_skips_gdd :
    (scenarioBody envPotato wOk 1 0 "s1" scControl).2 =
      Except.ok
        { newResult := none,
          newTable := some ("Control",
            { days := [0, 1, 2], GDD := none, daily_GDD := none }) } := by
  decide

/-- C3 evaluation at the failing input: a batch of one enabled potato
scenario whose engine run succeeds completes with an output table entry
but zero ScenarioResults, contradicting the claim that every successful
enabled scenario gets exactly one ScenarioResult. -/
theorem c3_potato_success_yields_no_result :
    resultsOfRun (runBatch envPotato [("s1", scControl)]) = [] ∧
    ((runBatch envPotato [("s1", scControl)]).outcome.toOption.map
      (fun f => f.dataframes.length)) = some 1 := by
  decide

/-- The enumerated event list has one event per application. -/
theorem buildEventsFrom_length (pd : ℤ) (j : ℕ) (apps : List Application) :
    (buildEventsFrom pd j apps).length = apps.length := by
  induction apps generalizing j with
  | nil => rfl
  | cons a rest ih => simp [buildEventsFrom, ih]

/-- The event at position i of the enumerated list is built from the
application at position i, labeled with the running index. -/
theorem buildEventsFrom_getD (pd : ℤ) (apps : List Application) :
    ∀ (j i : ℕ), i < apps.length →
      (buildEventsFrom pd j apps).getD i dfltEvent =
        mkTimedEvent pd (j + i) (apps.getD i dfltApp) := by
  induction apps with
  | nil => intro j i hi; simp at hi
  | cons a rest ih =>
      intro j i hi
      cases i with
      | zero => simp [buildEventsFrom]
      | succ i =>
          have hi' : i < rest.length := by simpa using hi
          have := ih (j + 1) i hi'
          simp only [buildEventsFrom, List.getD_cons_succ, this]
          congr 1
          omega

/-- C7: for every application (d, a, r) at position i of a nonempty
application list, the built timed-event list is present, has the same
length, and its event at position i is dated planting_date + d, carries
amount a and recovery r, and is labeled by the 1-based position i + 1; so
the emitted events preserve the input order of the applications. -/
theorem c7_timed_events (pd : ℤ) (apps : List Application) (i : ℕ)
    (hi : i < apps.length) :
    ∃ evs, buildTimedEvents pd apps = some evs ∧
      evs.length = apps.length ∧
      (evs.getD i dfltEvent).eventDate = pd + (apps.getD i dfltApp).days ∧
      (evs.getD i dfltEvent).n_amount = (apps.getD i dfltApp).amount ∧
      (evs.getD i dfltEvent).n_recovery = (apps.getD i dfltApp).recovery ∧
      (evs.getD i dfltEvent).name = "N application " ++ toString (i + 1) := by
  cases apps with
  | nil => simp at hi
  | cons a rest =>
      refine ⟨buildEventsFrom pd 0 (a :: rest), rfl,
        buildEventsFrom_length pd 0 (a :: rest), ?_⟩
      have h := buildEventsFrom_getD pd (a :: rest) 0 i hi
      rw [h]
      simp [mkTimedEvent]

/-- Witness for C7 at the spec example applications [(0,15,0.7),(30,10,0.6)]
(position 1, planting date taken as day 738594, the ordinal of 2023-03-15,
so the second event lands on day 738624, the ordinal of 2023-04-14). -/
theorem c7_timed_events_witness :
    ∃ evs, buildTimedEvents 738594 appsTest = some evs ∧
      evs.length = appsTest.length ∧
      (evs.getD 1 dfltEvent).eventDate = 738594 + (appsTest.getD 1 dfltApp).days ∧
      (evs.getD 1 dfltEvent).n_amount = (appsTest.getD 1 dfltApp).amount ∧
      (evs.getD 1 dfltEvent).n_recovery = (appsTest.getD 1 dfltApp).recovery ∧
      (evs.getD 1 dfltEvent).name = "N application " ++ toString (1 + 1) :=
  c7_timed_events 738594 appsTest 1 (by decide)

/-- Running sums preserve length. -/
theorem cumsumFrom_length (acc : ℚ) (l : List ℚ) :
    (cumsumFrom acc l).length = l.length := by
  induction l generalizing acc with
  | nil => rfl
  | cons x xs ih => simp [cumsumFrom, ih]

/-- The last running sum is the accumulator plus the total. -/
theorem cumsumFrom_getLastD (l : List ℚ) :
    ∀ acc : ℚ, (cumsumFrom acc l).getLastD acc = acc + l.sum := by
  induction l with
  | nil => intro acc; simp [cumsumFrom]
  | cons x xs ih =>
      intro acc
      simp only [cumsumFrom, List.getLastD_cons, ih (acc + x), List.sum_cons]
      ring

/-- Days whose weather lookup raises contribute zero, so the total daily
GDD equals the total over the days whose lookup succeeded. -/
theorem sum_gdd_over_succeeded (weather : Weather) (days : List ℤ) :
    (days.map (gddStep weather)).sum =
      ((days.filter fun x => (weather x).isSome).map (gddStep weather)).sum := by
  induction days with
  | nil => rfl
  | cons d rest ih =>
      by_cases h : (weather d).isSome
      · simp [List.filter_cons, h, ih]
      · have hz : gddStep weather d = 0 := by
          simp only [Option.isSome_iff_exists, not_exists] at h
          cases hw : weather d with
          | none => simp [gddStep, hw]
          | some w => exact absurd hw (h w)
        simp [List.filter_cons, h, ih, hz]

/-- C8: a failing weather lookup contributes a daily GDD of 0 and never
escalates: the cumulative column still covers every day of the output
(same length), and the final cumulative value equals the sum over only
the days whose lookup succeeded. -/
theorem c8_weather_failure_fail_soft (weather : Weather) (days : List ℤ)
    (d : ℤ) (hfail : weather d = none) :
    gddStep weather d = 0 ∧
    (cumsum (days.map (gddStep weather))).length = days.length ∧
    (cumsum (days.map (gddStep weather))).getLastD 0 =
      ((days.filter fun x => (weather x).isSome).map (gddStep weather)).sum := by
  refine ⟨by simp [gddStep, hfail], ?_, ?_⟩
  · rw [cumsum, cumsumFrom_length, List.length_map]
  · rw [cumsum, cumsumFrom_getLastD, zero_add, sum_gdd_over_succeeded]

/-- Witness for C8: the partial weather provider fails on day 1 of
[0, 1, 2]; day 1 contributes 0 and the cumulative total is the sum over
days 0 and 2 only. -/
theorem c8_weather_failure_fail_soft_witness :
    gddStep wPartial 1 = 0 ∧
    (cumsum ([0, 1, 2].map (gddStep wPartial))).length = ([0, 1, 2] : List ℤ).length ∧
    (cumsum ([0, 1, 2].map (gddStep wPartial))).getLastD 0 =
      ((([0, 1, 2] : List ℤ).filter fun x => (wPartial x).isSome).map
        (gddStep wPartial)).sum :=
  c8_weather_failure_fail_soft wPartial [0, 1, 2] 1 rfl

/-- Every result record built by processOutput carries
yield_t = yield_kg / 1000. -/
theorem processOutput_yield_t (env : Env) (weather : Weather) (key : String)
    (sc : Scenario) (er : EngineResult) (r : ScenarioResult)
    (h : (processOutput env weather key sc er).newResult = some r) :
    r.yield_t = r.yield_kg / 1000 := by
  obtain ⟨days, summary⟩ := er
  cases summary with
  | nil => simp [processOutput] at h
  | cons s rest =>
      by_cases hc : env.crop_name ∈ rootTuberCrops
      · simp [processOutput, hc] at h
      · simp only [processOutput, if_neg hc, Option.some.injEq] at h
        rw [← h]

/-- Every result record contributed by one scenario iteration carries
yield_t = yield_kg / 1000. -/
theorem scenarioBody_yield_t (env : Env) (weather : Weather)
    (total completed : ℕ) (key : String) (sc : Scenario) (out : ScenOut)
    (r : ScenarioResult)
    (h : (scenarioBody env weather total completed key sc).2 = .ok out)
    (hr : out.newResult = some r) :
    r.yield_t = r.yield_kg / 1000 := by
  rcases hdiv : pyIntDiv (70 * completed) total with e | q
  · simp [scenarioBody, hdiv] at h
  · rcases hcd : env.buildCropData with e | cropd
    · simp [scenarioBody, hdiv, hcd] at h
    · rcases hp : env.buildParams cropd with e | params
      · simp [scenarioBody, hdiv, hcd, hp] at h
      · rcases heng : env.engine (applyVernOverride env.cropConfig params)
            (buildAgro env sc) with e | er
        · simp [scenarioBody, hdiv, hcd, hp, heng] at h
          rw [← h] at hr
          simp at hr
        · simp [scenarioBody, hdiv, hcd, hp, heng] at h
          rw [← h] at hr
          exact processOutput_yield_t env weather key sc er r hr

/-- Every result collected by the scenario loop carries
yield_t = yield_kg / 1000. -/
theorem loopScenarios_yield_t (env : Env) (weather : Weather) (total : ℕ) :
    ∀ (l : List (String × Scenario)) (c : ℕ)
      (rs : List ScenarioResult) (dfs : List (String × RunOutput)),
      (loopScenarios env weather total c l).2 = .ok (rs, dfs) →
      ∀ r ∈ rs, r.yield_t = r.yield_kg / 1000 := by
  intro l
  induction l with
  | nil =>
      intro c rs dfs h r hr
      simp only [loopScenarios] at h
      cases h
      simp at hr
  | cons p rest ih =>
      intro c rs dfs h r hr
      obtain ⟨key, sc⟩ := p
      by_cases hen : sc.enabled
      · simp only [loopScenarios, hen, if_true] at h
        cases hb : scenarioBody env weather total c key sc with
        | mk emits exc =>
            rw [hb] at h
            cases exc with
            | error e => simp at h
            | ok out =>
                cases hrec : loopScenarios env weather total (c + 1) rest with
                | mk emits2 exc2 =>
                    rw [hrec] at h
                    cases exc2 with
                    | error e => simp at h
                    | ok pr =>
                        obtain ⟨rs', dfs'⟩ := pr
                        simp only [Except.ok.injEq, Prod.mk.injEq] at h
                        obtain ⟨hrs, -⟩ := h
                        rw [← hrs] at hr
                        rcases List.mem_append.mp hr with hin | hin
                        · cases hout : out.newResult with
                          | none => rw [hout] at hin; simp at hin
                          | some r0 =>
                              rw [hout] at hin
                              simp only [Option.toList_some, List.mem_singleton] at hin
                              subst hin
                              exact scenarioBody_yield_t env weather total c key sc
                                out r (by rw [hb]) hout
                        · exact ih (c + 1) rs' dfs' (by rw [hrec]) r hin
      · simp only [loopScenarios, hen, if_false] at h
        exact ih c rs dfs h r hr

/-- C9: every ScenarioResult produced by a batch run has its t/ha yield
equal to its kg/ha yield divided by 1000, exactly. -/
theorem c9_yield_t_exact (env : Env) (scs : List (String × Scenario))
    (r : ScenarioResult) (hr : r ∈ resultsOfRun (runBatch env scs)) :
    r.yield_t = r.yield_kg / 1000 := by
  unfold runBatch resultsOfRun at hr
  cases hw : env.makeWeather with
  | error e => rw [hw] at hr; simp at hr
  | ok weather =>
      rw [hw] at hr
      simp only at hr
      cases hl : loopScenarios env weather (countEnabled scs) 0 scs with
      | mk emits exc =>
          rw [hl] at hr
          cases exc with
          | error e => simp at hr
          | ok pr =>
              obtain ⟨rs, dfs⟩ := pr
              simp only at hr
              exact loopScenarios_yield_t env weather (countEnabled scs) scs 0 rs dfs
                (by rw [hl]) r hr

/-- Witness for C9: a concrete one-scenario maize batch produces exactly
the expected result record, whose t/ha yield is its kg/ha yield over 1000. -/
theorem c9_yield_t_exact_witness :
    rMaizeTest.yield_t = rMaizeTest.yield_kg / 1000 :=
  c9_yield_t_exact envMaizeNoDays [("s1", scControl)] rMaizeTest
    (List.mem_singleton.mpr rfl)

/-- A scenario list with every entry disabled contributes nothing: no
emits, no results, no tables, and no error. -/
theorem loopScenarios_all_disabled (env : Env) (w : Weather) (total : ℕ) :
    ∀ (l : List (String × Scenario)), (∀ p ∈ l, p.2.enabled = false) →
      ∀ c : ℕ, loopScenarios env w total c l = ([], .ok ([], [])) := by
  intro l
  induction l with
  | nil => intro _ c; rfl
  | cons p rest ih =>
      intro hdis c
      obtain ⟨key, sc⟩ := p
      have h1 : sc.enabled = false := hdis (key, sc) (List.mem_cons_self _ _)
      have h2 : ∀ q ∈ rest, q.2.enabled = false :=
        fun q hq => hdis q (List.mem_cons_of_mem _ hq)
      simp only [loopScenarios, h1, Bool.false_eq_true, if_false]
      exact ih h2 c

/-- C10: when no scenario is enabled the batch still completes
successfully with an empty result list and empty table map, and the only
emitted milestones are 5, 15, 95, 100.  The per-scenario percent
expression (whose division would raise ZeroDivisionError for an
enabled-count of 0, which the model surfaces as an error outcome) is
never reached, because the enabled check precedes it. -/
theorem c10_no_enabled_scenarios (env : Env) (scs : List (String × Scenario))
    (w : Weather) (hw : env.makeWeather = .ok w)
    (hdis : ∀ p ∈ scs, p.2.enabled = false) :
    runBatch env scs =
      { log := [(5, "Importing PCSE modules..."),
                (15, "Loading weather for " ++ env.locationName ++ "..."),
                (95, "Finalizing results..."), (100, "Done!")],
        outcome := .ok
          { results := [], dataframes := [],
            weatherDf := weatherRows w env.yearDays,
            weatherYear := env.startYear,
            locationName := env.locationName } } := by
  simp [runBatch, hw, loopScenarios_all_disabled env w (countEnabled scs) scs hdis 0]

/-- Witness for C10 at a concrete batch whose only scenario is disabled. -/
theorem c10_no_enabled_scenarios_witness :
    runBatch envMaize [("d1", { scControl with enabled := false })] =
      { log := [(5, "Importing PCSE modules..."),
                (15, "Loading weather for Nakuru..."),
                (95, "Finalizing results..."), (100, "Done!")],
        outcome := .ok
          { results := [], dataframes := [], weatherDf := [],
            weatherYear := 2023, locationName := "Nakuru" } } :=
  c10_no_enabled_scenarios envMaize [("d1", { scControl with enabled := false })]
    wOk rfl (by decide)

/-- C1 amended: an exception raised by the engine invocation of one
enabled scenario is caught at the scenario boundary: that scenario
contributes exactly its progress emit and no ScenarioResult and no table
entry, and the loop continues with the remaining scenarios unchanged. -/
theorem c1_engine_failure_isolated (env : Env) (w : Weather)
    (total completed : ℕ) (key : String) (sc : Scenario)
    (rest : List (String × Scenario)) (cropd : CropD) (params : Params)
    (e : String)
    (hen : sc.enabled = true)
    (hcd : env.buildCropData = .ok cropd)
    (hp : env.buildParams cropd = .ok params)
    (heng : env.engine (applyVernOverride env.cropConfig params)
      (buildAgro env sc) = .error e)
    (htot : total ≠ 0) :
    loopScenarios env w total completed ((key, sc) :: rest) =
      ((20 + 70 * completed / total, "Running: " ++ sc.name ++ "...") ::
        (loopScenarios env w total (completed + 1) rest).1,
       (loopScenarios env w total (completed + 1) rest).2) := by
  have hbody : scenarioBody env w total completed key sc =
      ([(20 + 70 * completed / total, "Running: " ++ sc.name ++ "...")],
       .ok { newResult := none, newTable := none }) := by
    simp [scenarioBody, pyIntDiv, htot, hcd, hp, heng]
  simp only [loopScenarios, hen, if_true, hbody]
  rcases hrec : loopScenarios env w total (completed + 1) rest with ⟨emits2, exc2⟩
  cases exc2 with
  | error e2 => simp
  | ok pr =>
      obtain ⟨rs, dfs⟩ := pr
      simp

/-- Witness for the amended C1: in a concrete two-scenario batch whose
engine raises on every run, the first scenario is skipped and the loop
proceeds to the second. -/
theorem c1_engine_failure_isolated_witness :
    loopScenarios envEngineFail wOk 2 0 [("s1", scControl), ("s2", scNpk)] =
      ((20 + 70 * 0 / 2, "Running: " ++ scControl.name ++ "...") ::
        (loopScenarios envEngineFail wOk 2 1 [("s2", scNpk)]).1,
       (loopScenarios envEngineFail wOk 2 1 [("s2", scNpk)]).2) :=
  c1_engine_failure_isolated envEngineFail wOk 2 0 "s1" scControl
    [("s2", scNpk)] cropdTest { overrides := [] } "engine failure"
    rfl rfl rfl rfl (by decide)

/-- A scenario iteration that does not abort the batch emitted exactly
one progress pair, at 20 plus the integer share of 70 for the number of
already-completed enabled scenarios. -/
theorem scenarioBody_ok_emits (env : Env) (w : Weather) (total c : ℕ)
    (key : String) (sc : Scenario) (out : ScenOut)
    (h : (scenarioBody env w total c key sc).2 = .ok out) :
    (scenarioBody env w total c key sc).1 =
      [(20 + 70 * c / total, "Running: " ++ sc.name ++ "...")] := by
  rcases hdiv : pyIntDiv (70 * c) total with e | q
  · simp [scenarioBody, hdiv] at h
  · have hq : q = 70 * c / total := by
      by_cases h0 : total = 0
      · simp [pyIntDiv, h0] at hdiv
      · simp [pyIntDiv, h0] at hdiv
        omega
    subst hq
    rcases hcd : env.buildCropData with e | cropd
    · simp [scenarioBody, hdiv, hcd] at h
    · rcases hp : env.buildParams cropd with e | params
      · simp [scenarioBody, hdiv, hcd, hp] at h
      · rcases heng : env.engine (applyVernOverride env.cropConfig params)
            (buildAgro env sc) with e | er <;>
          simp [scenarioBody, hdiv, hcd, hp, heng]

/-- When the scenario loop completes without a batch-fatal error, its
emitted percentages are exactly 20 plus the integer share of 70 for each
running count of completed enabled scenarios, in order. -/
theorem loopScenarios_log_of_ok (env : Env) (w : Weather) (total : ℕ) :
    ∀ (l : List (String × Scenario)) (c : ℕ) (rs : List ScenarioResult)
      (dfs : List (String × RunOutput)),
      (loopScenarios env w total c l).2 = .ok (rs, dfs) →
      (loopScenarios env w total c l).1.map Prod.fst =
        (List.range' c (countEnabled l)).map (fun k => 20 + 70 * k / total) := by
  intro l
  induction l with
  | nil => intro c rs dfs _; simp [loopScenarios, countEnabled]
  | cons p rest ih =>
      intro c rs dfs h
      obtain ⟨key, sc⟩ := p
      by_cases hen : sc.enabled
      · simp only [loopScenarios, hen, if_true] at h ⊢
        cases hb : scenarioBody env w total c key sc with
        | mk emits exc =>
            rw [hb] at h
            cases exc with
            | error e => simp at h
            | ok out =>
                cases hrec : loopScenarios env w total (c + 1) rest with
                | mk emits2 exc2 =>
                    rw [hrec] at h
                    cases exc2 with
                    | error e => simp at h
                    | ok pr =>
                        obtain ⟨rs2, dfs2⟩ := pr
                        have hlog := scenarioBody_ok_emits env w total c key sc out
                          (by rw [hb])
                        rw [hb] at hlog
                        dsimp only at hlog ⊢
                        have ih2 := ih (c + 1) rs2 dfs2 (by rw [hrec])
                        rw [hrec] at ih2
                        dsimp only at ih2
                        have hcount : countEnabled ((key, sc) :: rest) =
                            countEnabled rest + 1 := by
                          simp [countEnabled, hen]
                        rw [hcount, List.range'_succ c (countEnabled rest) 1,
                          List.map_cons, List.map_append, hlog, ih2]
                        simp
      · have hf : sc.enabled = false := Bool.not_eq_true _ ▸ eq_false_of_ne_true hen
        simp only [loopScenarios, hf, Bool.false_eq_true, if_false] at h ⊢
        have hcount : countEnabled ((key, sc) :: rest) = countEnabled rest := by
          simp [countEnabled, hf]
        rw [hcount]
        exact ih c rs dfs h

/-- The milestone list 5, 15, per-scenario percentages, 95, 100 is
monotonically non-decreasing. -/
theorem chain_progress_percents (n : ℕ) :
    List.Chain' (· ≤ ·)
      (5 :: 15 :: (((List.range n).map (fun k => 20 + 70 * k / n)) ++ [95, 100])) := by
  have hmem : ∀ x ∈ (List.range n).map (fun k => 20 + 70 * k / n),
      20 ≤ x ∧ x ≤ 95 := by
    intro x hx
    rcases List.mem_map.mp hx with ⟨k, hk, rfl⟩
    have hkn : k < n := List.mem_range.mp hk
    have hdiv : 70 * k / n ≤ 70 := Nat.div_le_of_le_mul (by omega)
    refine ⟨Nat.le_add_right _ _, ?_⟩
    exact le_trans (Nat.add_le_add_left hdiv 20) (by norm_num)
  apply List.Pairwise.chain'
  rw [List.pairwise_cons]
  refine ⟨?_, ?_⟩
  · intro b hb
    rcases List.mem_cons.mp hb with rfl | hb
    · omega
    · rcases List.mem_append.mp hb with hb | hb
      · exact le_trans (by omega) (hmem b hb).1
      · rcases List.mem_cons.mp hb with rfl | hb
        · omega
        · rcases List.mem_cons.mp hb with rfl | hb
          · omega
          · simp at hb
  rw [List.pairwise_cons]
  refine ⟨?_, ?_⟩
  · intro b hb
    rcases List.mem_append.mp hb with hb | hb
    · exact le_trans (by omega) (hmem b hb).1
    · rcases List.mem_cons.mp hb with rfl | hb
      · omega
      · rcases List.mem_cons.mp hb with rfl | hb
        · omega
        · simp at hb
  rw [List.pairwise_append]
  refine ⟨?_, ?_, ?_⟩
  · rw [List.pairwise_map]
    refine (List.pairwise_lt_range n).imp ?_
    intro a b hab
    exact Nat.add_le_add_left (Nat.div_le_div_right (by omega)) 20
  · simp
  · intro x hx y hy
    have hx95 : x ≤ 95 := (hmem x hx).2
    rcases List.mem_cons.mp hy with rfl | hy
    · omega
    · rcases List.mem_cons.mp hy with rfl | hy
      · omega
      · simp at hy

/-- C4: whenever a batch run completes (the finished signal fires), the
emitted percentage sequence is exactly 5, 15, then 20 plus the integer
share of 70 for each completed count from 0 to the enabled total minus
one — a sequence rising linearly from 20 toward 90 proportionally to
completed/total — then 95 and 100; it is monotonically non-decreasing,
and its final value is 100, regardless of how many scenarios failed. -/
theorem c4_progress_sequence (env : Env) (scs : List (String × Scenario))
    (hok : ((runBatch env scs).outcome).toOption.isSome = true) :
    ((runBatch env scs).log.map Prod.fst =
      5 :: 15 :: (((List.range (countEnabled scs)).map
        (fun k => 20 + 70 * k / countEnabled scs)) ++ [95, 100])) ∧
    List.Chain' (· ≤ ·) ((runBatch env scs).log.map Prod.fst) ∧
    ((runBatch env scs).log.map Prod.fst).getLast? = some 100 := by
  have hchar : (runBatch env scs).log.map Prod.fst =
      5 :: 15 :: (((List.range (countEnabled scs)).map
        (fun k => 20 + 70 * k / countEnabled scs)) ++ [95, 100]) := by
    rcases hw : env.makeWeather with e | w
    · simp [runBatch, hw, Except.toOption] at hok
    · rcases hl : loopScenarios env w (countEnabled scs) 0 scs with ⟨emits, exc⟩
      cases exc with
      | error e => simp [runBatch, hw, hl, Except.toOption] at hok
      | ok pr =>
          obtain ⟨rs, dfs⟩ := pr
          have hlog := loopScenarios_log_of_ok env w (countEnabled scs) scs 0 rs dfs
            (by rw [hl])
          rw [hl] at hlog
          simp only [runBatch, hw, hl]
          rw [List.range_eq_range' (countEnabled scs)] at *
          simp [hlog]
  refine ⟨hchar, ?_, ?_⟩
  · rw [hchar]
    exact chain_progress_percents (countEnabled scs)
  · rw [hchar]
    have hsplit : 5 :: 15 :: (((List.range (countEnabled scs)).map
        (fun k => 20 + 70 * k / countEnabled scs)) ++ [95, 100]) =
        (5 :: 15 :: (((List.range (countEnabled scs)).map
          (fun k => 20 + 70 * k / countEnabled scs)) ++ [95])) ++ [100] := by
      simp
    rw [hsplit]
    exact List.getLast?_concat _

/-- Witness for C4: a concrete two-scenario batch in which the first
scenario fails its engine run still emits 5, 15, 20, 55, 95, 100 — a
non-decreasing sequence ending at 100. -/
theorem c4_progress_sequence_witness :
    ((runBatch envHalf [("s1", scControl), ("s2", scNpk)]).log.map Prod.fst =
      5 :: 15 :: (((List.range (countEnabled [("s1", scControl), ("s2", scNpk)])).map
        (fun k => 20 + 70 * k /
          countEnabled [("s1", scControl), ("s2", scNpk)])) ++ [95, 100])) ∧
    List.Chain' (· ≤ ·)
      ((runBatch envHalf [("s1", scControl), ("s2", scNpk)]).log.map Prod.fst) ∧
    ((runBatch envHalf [("s1", scControl), ("s2", scNpk)]).log.map
      Prod.fst).getLast? = some 100 :=
  c4_progress_sequence envHalf [("s1", scControl), ("s2", scNpk)] (by decide)
